import Mathlib

/-!
Shallow embedding of `src/mission_start.cpp` (Cataclysm-DDA mission
initialization layer).

The file under verification is orchestration glue: it queries external
services (`overmap_buffer`, `g`, `tinymap`) and mutates the mission object
and loaded map chunks.  We embed it as follows:

* external queries (`overmap_buffer.find_closest`, `g->find_npc`, map tile
  reads, ...) become fields of an `Env` structure of oracle functions;
* every side effect (debug message, reveal, mission-target assignment,
  overmap terrain write, map-chunk edit, ...) becomes an `Event` appended
  to a chronological event list that each embedded routine returns;
* calls to `rng(a, b)` draw from an oracle stream `rngs : Nat → Nat`
  (via `rngv`, which reduces the drawn value into the interval `[a, b]`).

Game-wide constants (`SEEX`, `SEEY`, `OMAPX`, overmap depth/height) and the
tiny pure helpers `square_dist`, `sm_to_omt_copy` and `overmap::inbounds`
live outside the excerpt (game_constants.h, line.cpp, coordinate
conversions, overmap.cpp); they are reproduced here with their well-known
definitions, and no claim depends on their numeric values.
-/

/-- 3D integer coordinate, mirroring the game's `tripoint`. -/
structure tripoint where
  x : Int
  y : Int
  z : Int
deriving DecidableEq, Repr

/-- `overmap::invalid_tripoint`: the INT_MIN sentinel returned by failed
overmap searches. -/
def invalid_tripoint : tripoint :=
  ⟨-2147483648, -2147483648, -2147483648⟩

/-- Map chunk width constant (game_constants.h, not in the excerpt). -/
def SEEX : Int := 12

/-- Map chunk height constant (game_constants.h, not in the excerpt). -/
def SEEY : Int := 12

/-- Overmap width in overmap terrain tiles (game_constants.h, not in the
excerpt).  Used symbolically as the default `search_range`. -/
def OMAPX : Int := 180

/-- Overmap height in overmap terrain tiles. -/
def OMAPY : Int := 180

/-- `overmap::inbounds( p, clearance )` (overmap.cpp, not in the excerpt). -/
def overmap_inbounds (p : tripoint) (clearance : Int) : Bool :=
  clearance ≤ p.x && p.x < OMAPX - clearance &&
  clearance ≤ p.y && p.y < OMAPY - clearance &&
  -10 ≤ p.z && p.z ≤ 10

/-- `square_dist` (line.cpp, not in the excerpt): Chebyshev distance, the
distance along "square rings". -/
def square_dist (x1 y1 x2 y2 : Int) : Int :=
  max (x1 - x2).natAbs (y1 - y2).natAbs

/-- `sm_to_omt_copy` (coordinate_conversions, not in the excerpt): submap to
overmap-terrain coordinates, floor division of x and y by 2, z preserved. -/
def sm_to_omt_copy (p : tripoint) : tripoint :=
  ⟨Int.fdiv p.x 2, Int.fdiv p.y 2, p.z⟩

/-- The NPC attributes read by the embedded routines. -/
structure Npc where
  omt_location : tripoint
  myclass : String
  name : String
deriving DecidableEq, Repr

/-- `city_reference`: the fields read by `random_house_in_city`. -/
structure city_reference where
  abs_sm_pos : tripoint
  city_size : Int
deriving DecidableEq, Repr

/-- One observable side effect of a mission-start routine, in program
order.  Mission-object writes, overmap writes and map-chunk writes each get
their own constructor so that frame conditions are expressible. -/
inductive Event where
  | debug : Event
  | msg : Event
  | reveal (p : tripoint) (radius : Int) : Event
  | set_target (p : tripoint) : Event
  | set_item_id (s : String) : Event
  | set_follow_up (s : String) : Event
  | set_recruit_class (s : String) : Event
  | om_set_ter (p : tripoint) (ter : String) : Event
  | om_place_special (special : String) (origin : tripoint) (range : Int) : Event
  | om_insert_npc : Event
  | npc_set_attitude (a : String) : Event
  | npc_add_effect (e : String) : Event
  | npc_remove_items : Event
  | npc_guard : Event
  | item_add (s : String) : Event
  | map_load (p : tripoint) : Event
  | map_save : Event
  | map_spawn (mon : String) (count : Int) (x y : Int) : Event
  | map_ter_set (x y : Int) (ter : String) : Event
  | map_spawn_item (x y : Int) (it : String) : Event
  | map_add_computer (x y : Int) : Event
  | util_target_om_ter (ter : String) (radius : Int) (result : tripoint) : Event
deriving DecidableEq, Repr

/-- Oracle environment: every external query made by the embedded code.
`find_closest` and `find_random` take the arguments in source order
`(origin, type, radius, must_be_seen, allow_subtype_matches,
existing_overmaps_only, om_special)`; call sites that rely on C++ default
arguments pass `false` / `none` for the elided positions. -/
structure Env where
  find_closest : tripoint → String → Int → Bool → Bool → Bool → Option String → tripoint
  find_random : tripoint → String → Int → Bool → Bool → Bool → Option String → tripoint
  place_special : String → tripoint → Int → Bool
  closest_city : tripoint → Option city_reference
  check_ot_type : String → Int → Int → Int → Bool
  is_safe : tripoint → Bool
  find_npc : Int → Option Npc
  player_omt : tripoint
  player_sm : tripoint
  om_ter : tripoint → String
  is_ot_type : String → String → Bool
  tin_ter : tripoint → Int → Int → String
  tin_furn : tripoint → Int → Int → String
  tin_has_wall_flag : tripoint → Int → Int → Bool
  is_last_ter_wall : tripoint → Int → Int → String → Bool
  target_om_ter : String → Int → Bool → tripoint

/-- The integers from `lo` to `hi` inclusive, in increasing order (the
iteration space of a C++ `for( v = lo; v <= hi; v++ )` loop). -/
def intRange (lo hi : Int) : List Int :=
  (List.range (hi + 1 - lo).toNat).map (fun (i : Nat) => lo + (i : Int))

/-- `random_entry( list, fallback )`: a uniformly random element, or the
fallback when the list is empty.  The random draw is the oracle value `r`. -/
def random_entry {α : Type} (r : Nat) (l : List α) (fallback : α) : α :=
  if l.isEmpty then fallback else l.getD (r % l.length) fallback

/-- `rng( a, b )`: the `k`-th oracle draw, reduced into `[a, b]`. -/
def rngv (rngs : Nat → Nat) (k : Nat) (a b : Int) : Int :=
  a + (Int.ofNat (rngs k)) % (b - a + 1)

structure mission_target_params where
  overmap_terrain_subtype : String
  search_origin : Option tripoint := none
  replaceable_overmap_terrain_subtype : Option String := none
  overmap_special : Option String := none
  reveal_radius : Option Int := none
  must_see : Bool := false
  random : Bool := false
  create_if_necessary : Bool := true
  search_range : Int := OMAPX
deriving DecidableEq, Repr

/-- The search-and-create phase of `assign_mission_target` (lines 137-187):
the initial `find_random`/`find_closest` search followed, when it failed and
creation is permitted, by the `place_special` or replaceable-terrain
branch.  Returns the final `target_pos` together with the overmap-mutating
events of the creation branch. -/
def mission_target_search (env : Env) (params : mission_target_params) :
    tripoint × List Event :=
  let origin_pos := params.search_origin.getD env.player_omt
  let found :=
    if params.random then
      env.find_random origin_pos params.overmap_terrain_subtype
        params.search_range params.must_see false true params.overmap_special
    else
      env.find_closest origin_pos params.overmap_terrain_subtype
        params.search_range params.must_see false true params.overmap_special
  if found = invalid_tripoint ∧ params.create_if_necessary = true ∧
      params.must_see = false then
    match params.overmap_special with
    | some special =>
        let placed := env.place_special special origin_pos params.search_range
        if placed then
          (env.find_closest origin_pos params.overmap_terrain_subtype
             params.search_range false false true params.overmap_special,
           [Event.om_place_special special origin_pos params.search_range])
        else
          (found, [Event.om_place_special special origin_pos params.search_range])
    | none =>
      match params.replaceable_overmap_terrain_subtype with
      | some repl =>
          let t1 := env.find_random origin_pos repl params.search_range
            false false true none
          let t2 := if t1 = invalid_tripoint then
              env.find_random origin_pos repl params.search_range
                false false false none
            else t1
          if t2 = invalid_tripoint then (t2, [])
          else (t2, [Event.om_set_ter t2 params.overmap_terrain_subtype])
      | none => (found, [])
  else (found, [])

/-- `assign_mission_target` (lines 135-205): run the search-and-create
phase, then either report failure with a debug message, or reveal (when a
radius was requested) and set the mission target. -/
def assign_mission_target (env : Env) (params : mission_target_params) :
    Option tripoint × List Event :=
  let se := mission_target_search env params
  if se.1 = invalid_tripoint then
    (none, se.2 ++ [Event.debug])
  else
    let reveal_ev :=
      match params.reveal_radius with
      | some r => [Event.reveal se.1 r]
      | none => []
    (some se.1, se.2 ++ reveal_ev ++ [Event.set_target se.1])

/-- The JSON fields read by `mission_util::set_assign_om_target`; `none`
models an absent key. -/
structure MissionTargetJson where
  om_terrain : Option String := none
  om_terrain_replace : Option String := none
  om_special : Option String := none
  reveal_radius : Option Int := none
  must_see : Option Bool := none
  random : Option Bool := none
  search_range : Option Int := none
  z : Option Int := none
deriving DecidableEq, Repr

/-- `mission_util::set_assign_om_target` (lines 1031-1071): parse the JSON
object into a `mission_target_params` (clamping `reveal_radius` and
`search_range` at 1) plus the optional `z` override that the emitted
closure applies to the search origin at run time.  A missing `om_terrain`
raises a JSON error. -/
def set_assign_om_target (jo : MissionTargetJson) :
    Except String (mission_target_params × Option Int) :=
  match jo.om_terrain with
  | none => Except.error "om_terrain is required for assign_mission_target"
  | some terr =>
    let p : mission_target_params := {
      overmap_terrain_subtype := terr
      replaceable_overmap_terrain_subtype := jo.om_terrain_replace
      overmap_special := jo.om_special
      reveal_radius := jo.reveal_radius.map (fun r => max 1 r)
      must_see := jo.must_see.getD false
      random := jo.random.getD false
      search_range := (jo.search_range.map (fun s => max 1 s)).getD OMAPX }
    Except.ok (p, jo.z)

/-- `random_house_in_city` (lines 55-73): collect every overmap tile of
type "house" in the axis-aligned square of half-width `size` around the
city center, and pick a random one; the city center is the fallback. -/
def random_house_in_city (env : Env) (r : Nat) (cref : city_reference) : tripoint :=
  let city_center_omt := sm_to_omt_copy cref.abs_sm_pos
  let size := cref.city_size
  let z := cref.abs_sm_pos.z
  let valid := (intRange (city_center_omt.x - size) (city_center_omt.x + size)).flatMap
    (fun x => (intRange (city_center_omt.y - size) (city_center_omt.y + size)).filterMap
      (fun y => if env.check_ot_type "house" x y z then some (tripoint.mk x y z) else none))
  random_entry r valid city_center_omt

/-- `random_house_in_closest_city` (lines 75-84): look up the city nearest
the player; on failure emit a debug message and fall back to the player's
global overmap-terrain location. -/
def random_house_in_closest_city (env : Env) (r : Nat) : tripoint × List Event :=
  match env.closest_city env.player_sm with
  | none => (env.player_omt, [Event.debug])
  | some cref => (random_house_in_city env r cref, [])

/-- `target_closest_lab_entrance` (lines 86-111): compare the closest
surface "lab_stairs" (searched at z = 0) with the closest
"hidden_lab_stairs" (searched at z = -1, then z forced to 0) by
`square_dist`, reveal the winner when it is valid and the radius is
non-negative, and always set it as the mission target. -/
def target_closest_lab_entrance (env : Env) (origin : tripoint) (reveal_rad : Int) :
    tripoint × List Event :=
  let surface := env.find_closest ⟨origin.x, origin.y, 0⟩ "lab_stairs" 0 false true false none
  let underground0 := env.find_closest ⟨origin.x, origin.y, -1⟩ "hidden_lab_stairs" 0
    false true false none
  let underground : tripoint := ⟨underground0.x, underground0.y, 0⟩
  let closest :=
    if square_dist surface.x surface.y origin.x origin.y ≤
        square_dist underground.x underground.y origin.x origin.y then surface
    else underground
  let reveal_ev :=
    if closest ≠ invalid_tripoint ∧ 0 ≤ reveal_rad then [Event.reveal closest reveal_rad]
    else []
  (closest, reveal_ev ++ [Event.set_target closest])

/-- One direction case of the `switch( ( offset + i ) % 4 )` in
`mission_start::find_safety` (lines 510-527). -/
def find_safety_dir (place : tripoint) (radius dist : Int) : Nat → tripoint
  | 0 => ⟨place.x + dist, place.y - radius, place.z⟩
  | 1 => ⟨place.x + dist, place.y + radius, place.z⟩
  | 2 => ⟨place.x - radius, place.y + dist, place.z⟩
  | _ => ⟨place.x + radius, place.y + dist, place.z⟩

/-- The inner `for( i = 0; i <= 3; i++ )` of `find_safety`: try the four
directions starting at the random `offset`, returning the first safe
checked tile. -/
def find_safety_try (env : Env) (place : tripoint) (radius dist : Int)
    (offset : Nat) : Option tripoint :=
  (List.range 4).findSome? (fun i =>
    let check := find_safety_dir place radius dist ((offset + i) % 4)
    if env.is_safe check then some check else none)

/-- The iteration space of the two outer loops of `find_safety`:
`radius` from 0 to 20 and `dist` from `-radius` to `radius`, in order. -/
def find_safety_pairs : List (Nat × Int) :=
  (List.range 21).flatMap (fun radius =>
    (List.range (2 * radius + 1)).map (fun (d : Nat) => (radius, (d : Int) - (radius : Int))))

/-- The double loop of `find_safety` (lines 505-534): scan the square
rings of radius 0..20 around `place`, returning the first safe tile
(the per-iteration random direction offset comes from the oracle
`offs`). -/
def find_safety_scan (env : Env) (offs : Nat → Int → Nat) (place : tripoint) :
    Option tripoint :=
  find_safety_pairs.findSome?
    (fun rd => find_safety_try env place (rd.1 : Int) rd.2 (offs rd.1 rd.2))

/-- `mission_start::find_safety` (lines 502-550): scan square rings of
radius 0..20 around the player for a safe overmap tile; if none is found,
target one of the four corners at offset (±20, ±20) chosen by the draw
`rfb`.  Returns the chosen target and the event list (always exactly one
`set_target`). -/
def find_safety (env : Env) (offs : Nat → Int → Nat) (rfb : Nat) :
    tripoint × List Event :=
  let place := env.player_omt
  match find_safety_scan env offs place with
  | some check => (check, [Event.set_target check])
  | none =>
    let corner : tripoint :=
      match rfb % 4 with
      | 0 => ⟨place.x - 20, place.y - 20, place.z⟩
      | 1 => ⟨place.x - 20, place.y + 20, place.z⟩
      | 2 => ⟨place.x + 20, place.y - 20, place.z⟩
      | _ => ⟨place.x + 20, place.y + 20, place.z⟩
    (corner, [Event.set_target corner])

/-- The mission-object fields read by the embedded routines.  Writes to the
mission object are modelled as events. -/
structure Mission where
  npc_id : Int
  item_id : String
deriving DecidableEq, Repr

/-- The `tile.add_spawn` block of `mission_start::kill_horde_master`
(lines 322-338): load the chunk, place the master and its escort (the 3x3
`rng`-counted zombie block only when `overmap::inbounds` holds), and save. -/
def kill_horde_master_spawns (rngs : Nat → Nat) (site : tripoint) : List Event :=
  [Event.map_load site,
   Event.map_spawn "mon_zombie_master" 1 SEEX SEEY,
   Event.map_spawn "mon_zombie_brute" 3 SEEX SEEY,
   Event.map_spawn "mon_zombie_dog" 3 SEEX SEEY] ++
  (if overmap_inbounds ⟨SEEX, SEEY, 0⟩ 1 then
    (List.range 3).flatMap (fun ix =>
      ((List.range 3).map (fun iy =>
        Event.map_spawn "mon_zombie" (rngv rngs (ix * 4 + iy) 3 10)
          (SEEX - 1 + (ix : Int)) (SEEY - 1 + (iy : Int)))) ++
      [Event.map_spawn "mon_zombie_dog" (rngv rngs (ix * 4 + 3) 0 2) SEEX SEEY])
  else []) ++
  [Event.map_spawn "mon_zombie_necro" 2 SEEX SEEY,
   Event.map_spawn "mon_zombie_hulk" 1 SEEX SEEY,
   Event.map_save]

/-- Is this event an edit of the loaded map chunk (load / spawn / save)? -/
def Event.is_tile_op : Event → Bool
  | Event.map_load _ => true
  | Event.map_save => true
  | Event.map_spawn _ _ _ _ => true
  | _ => false

/-- The 3x3 neighbourhood scan of `find_potential_computer_point`
(lines 356-368): fold over the cells in loop order, stopping (as the C++
`!okay` loop conditions do) once a bed or dresser is found; the second
component counts the WALL-flagged cells visited. -/
def computer_adj_scan (env : Env) (site : tripoint) (x y : Int) : Bool × Nat :=
  ((intRange (x - 1) (x + 1)).flatMap (fun x2 =>
    (intRange (y - 1) (y + 1)).map (fun y2 => (x2, y2)))).foldl
    (fun st c =>
      if st.1 then st
      else
        let ok := decide (env.tin_furn site c.1 c.2 = "f_bed" ∨
          env.tin_furn site c.1 c.2 = "f_dresser")
        let w := if env.tin_has_wall_flag site c.1 c.2 then st.2 + 1 else st.2
        (ok, w))
    (false, 0)

/-- `find_potential_computer_point` (lines 347-382): prefer broken
consoles, then floor cells next to a bed/dresser or enclosed by walls, with
a random central cell as fallback. -/
def find_potential_computer_point (env : Env) (rngs : Nat → Nat) (rsel : Nat)
    (site : tripoint) : tripoint :=
  let z := site.z
  let broken := (intRange 0 (SEEX * 2 - 1)).flatMap (fun x =>
    (intRange 0 (SEEY * 2 - 1)).filterMap (fun y =>
      if env.tin_ter site x y = "t_console_broken" then some (tripoint.mk x y z)
      else none))
  let potential := (intRange 0 (SEEX * 2 - 1)).flatMap (fun x =>
    (intRange 0 (SEEY * 2 - 1)).flatMap (fun y =>
      if env.tin_ter site x y = "t_console_broken" then []
      else if env.tin_ter site x y = "t_floor" ∧ env.tin_furn site x y = "f_null" then
        let st := computer_adj_scan env site x y
        (if st.1 then [tripoint.mk x y z] else []) ++
        (if st.2 = 5 ∧ env.is_last_ter_wall site x y "NORTH" = true ∧
            env.is_last_ter_wall site x y "SOUTH" = true ∧
            env.is_last_ter_wall site x y "WEST" = true ∧
            env.is_last_ter_wall site x y "EAST" = true then [tripoint.mk x y z]
         else [])
      else []))
  let fallback := tripoint.mk (rngv rngs 100 10 (SEEX * 2 - 11))
    (rngv rngs 101 10 (SEEY * 2 - 11)) z
  random_entry rsel (if broken.isEmpty = false then broken else potential) fallback

namespace mission_start

/-- `mission_start::join` (lines 211-219). -/
def join (env : Env) (miss : Mission) : List Event :=
  match env.find_npc miss.npc_id with
  | none => [Event.debug]
  | some _ => [Event.npc_set_attitude "NPCATT_FOLLOW"]

/-- `mission_start::infect_npc` (lines 221-235). -/
def infect_npc (env : Env) (miss : Mission) : List Event :=
  match env.find_npc miss.npc_id with
  | none => [Event.debug]
  | some _ => [Event.npc_add_effect "infection", Event.npc_remove_items, Event.npc_guard]

/-- `mission_start::need_drugs_npc` (lines 237-250). -/
def need_drugs_npc (env : Env) (miss : Mission) : List Event :=
  match env.find_npc miss.npc_id with
  | none => [Event.debug]
  | some _ => [Event.npc_remove_items, Event.npc_guard]

/-- `mission_start::place_dog` (lines 252-270).  Note that the house is
chosen before the NPC lookup, so a failed city search can add its own
debug message even on the early-return path; neither path mutates the
mission or the map before the NPC check. -/
def place_dog (env : Env) (r : Nat) (miss : Mission) : List Event :=
  let hres := random_house_in_closest_city env r
  match env.find_npc miss.npc_id with
  | none => hres.2 ++ [Event.debug]
  | some _ =>
    hres.2 ++
    [Event.item_add "dog_whistle", Event.msg,
     Event.set_target hres.1, Event.reveal hres.1 6,
     Event.map_load hres.1, Event.map_spawn "mon_dog" 1 SEEX SEEY, Event.map_save]

/-- `mission_start::kill_horde_master` (lines 300-339). -/
def kill_horde_master (env : Env) (rngs : Nat → Nat) (miss : Mission) : List Event :=
  match env.find_npc miss.npc_id with
  | none => [Event.debug]
  | some p =>
    let center := p.omt_location
    let site1 := env.find_closest center "office_tower_1" 0 false false false none
    let site2 := if site1 = invalid_tripoint then
        env.find_closest center "hotel_tower_1_8" 0 false false false none
      else site1
    let site3 := if site2 = invalid_tripoint then
        env.find_closest center "school_5" 0 false false false none
      else site2
    let site := if site3 = invalid_tripoint then
        env.find_closest center "forest_thick" 0 false false false none
      else site3
    Event.npc_set_attitude "NPCATT_FOLLOW" :: Event.set_target site ::
      Event.reveal site 6 :: kill_horde_master_spawns rngs site

/-- `mission_start::place_deposit_box` (lines 457-500). -/
def place_deposit_box (env : Env) (rngs : Nat → Nat) (rsel : Nat)
    (miss : Mission) : List Event :=
  match env.find_npc miss.npc_id with
  | none => [Event.debug]
  | some p =>
    let s1 := env.find_closest p.omt_location "bank" 0 false false false none
    let s2 := if s1 = invalid_tripoint then
        env.find_closest p.omt_location "office_tower_1" 0 false false false none
      else s1
    let site := if s2 = invalid_tripoint then p.omt_location else s2
    let dbg : List Event := if s2 = invalid_tripoint then [Event.debug] else []
    let valid := (intRange 0 (SEEX * 2 - 1)).flatMap (fun x =>
      (intRange 0 (SEEY * 2 - 1)).flatMap (fun y =>
        if env.tin_ter site x y = "t_floor" ∧
            ((intRange (x - 1) (x + 1)).any (fun x2 =>
              (intRange (y - 1) (y + 1)).any (fun y2 =>
                decide (env.tin_ter site x2 y2 = "t_wall_metal")))) = true
        then [tripoint.mk x y site.z] else []))
    let fallback := tripoint.mk (rngv rngs 0 6 (SEEX * 2 - 7))
      (rngv rngs 1 6 (SEEY * 2 - 7)) site.z
    let comppoint := random_entry rsel valid fallback
    [Event.npc_set_attitude "NPCATT_FOLLOW"] ++ dbg ++
    [Event.set_target site, Event.reveal site 2, Event.map_load site,
     Event.map_spawn_item comppoint.x comppoint.y "safe_box", Event.map_save]

/-- `mission_start::recruit_tracker` (lines 552-576).
`mission_util::target_om_ter` lives outside the excerpt; its call is
recorded as a `util_target_om_ter` event with the oracle's result. -/
def recruit_tracker (env : Env) (miss : Mission) : List Event :=
  match env.find_npc miss.npc_id with
  | none => [Event.debug]
  | some _ =>
    let site := env.target_om_ter "cabin" 2 false
    [Event.npc_set_attitude "NPCATT_FOLLOW",
     Event.util_target_om_ter "cabin" 2 site,
     Event.set_recruit_class "NC_COWBOY",
     Event.om_insert_npc]

/-- `mission_start::place_npc_software` (lines 384-432). -/
def place_npc_software (env : Env) (rngs : Nat → Nat) (rhouse rsel : Nat)
    (miss : Mission) : List Event :=
  match env.find_npc miss.npc_id with
  | none => [Event.debug]
  | some dev =>
    let class_ev_ty : List Event × String :=
      if dev.myclass = "NC_HACKER" then ([Event.set_item_id "software_hacking"], "house")
      else if dev.myclass = "NC_DOCTOR" then
        ([Event.set_item_id "software_medical",
          Event.set_follow_up "MISSION_GET_ZOMBIE_BLOOD_ANAL"], "s_pharm")
      else if dev.myclass = "NC_SCIENTIST" then
        ([Event.set_item_id "software_math"], "house")
      else ([Event.set_item_id "software_useless"], "house")
    let pres : tripoint × List Event :=
      if class_ev_ty.2 = "house" then random_house_in_closest_city env rhouse
      else (env.find_closest dev.omt_location class_ev_ty.2 0 false false false none, [])
    let place := pres.1
    let oter := env.om_ter place
    let comppoint :=
      if env.is_ot_type "house" oter = true ∨ env.is_ot_type "s_pharm" oter = true ∨
          oter = "" then
        find_potential_computer_point env rngs rsel place
      else (⟨0, 0, 0⟩ : tripoint)
    [Event.item_add "usb_drive", Event.msg] ++ class_ev_ty.1 ++ pres.2 ++
    [Event.set_target place, Event.reveal place 6, Event.map_load place,
     Event.map_ter_set comppoint.x comppoint.y "t_console",
     Event.map_add_computer comppoint.x comppoint.y,
     Event.map_save]

end mission_start

/-- A concrete NPC for witnesses. -/
def npcA : Npc := ⟨⟨1, 2, 0⟩, "NC_HACKER", "Dev"⟩

/-- A concrete oracle environment in which every search succeeds. -/
def envA : Env where
  find_closest := fun _ _ _ _ _ _ _ => ⟨5, 7, 0⟩
  find_random := fun _ _ _ _ _ _ _ => ⟨3, 4, 0⟩
  place_special := fun _ _ _ => true
  closest_city := fun _ => none
  check_ot_type := fun _ _ _ _ => false
  is_safe := fun _ => false
  find_npc := fun _ => some npcA
  player_omt := ⟨0, 0, 0⟩
  player_sm := ⟨0, 0, 0⟩
  om_ter := fun _ => "house"
  is_ot_type := fun _ _ => true
  tin_ter := fun _ _ _ => "t_floor"
  tin_furn := fun _ _ _ => "f_null"
  tin_has_wall_flag := fun _ _ _ => false
  is_last_ter_wall := fun _ _ _ _ => true
  target_om_ter := fun _ _ _ => ⟨9, 9, 0⟩

/-- A concrete oracle environment in which every search fails and no NPC
or city is found. -/
def envB : Env :=
  { envA with
    find_closest := fun _ _ _ _ _ _ _ => invalid_tripoint
    find_random := fun _ _ _ _ _ _ _ => invalid_tripoint
    place_special := fun _ _ _ => false
    find_npc := fun _ => none }

/-- An environment with a single house tile at (1, 1). -/
def envC : Env :=
  { envA with check_ot_type := fun _ x y _ => decide (x = 1 ∧ y = 1) }

/-- A constant `rng` oracle stream. -/
def rngs0 : Nat → Nat := fun _ => 0

/-- A constant direction-offset oracle for `find_safety`. -/
def offs0 : Nat → Int → Nat := fun _ _ => 0

/-- A concrete mission for witnesses. -/
def missA : Mission := ⟨7, "antibiotics"⟩

/-- Concrete parameters for the `assign_mission_target` witnesses. -/
def paramsA : mission_target_params :=
  { overmap_terrain_subtype := "evac_center_18", reveal_radius := some 3 }

/-- Concrete parameters with `must_see` set, for the frame witness. -/
def paramsM : mission_target_params :=
  { overmap_terrain_subtype := "evac_center_18", must_see := true }

/-- A concrete JSON object for the loader witness. -/
def joA : MissionTargetJson :=
  { om_terrain := some "bank", reveal_radius := some 0, search_range := none }

/-- Concrete parameters with neither a special nor a replacement terrain. -/
def paramsB : mission_target_params := { overmap_terrain_subtype := "evac_center_18" }

/-- A concrete city reference for the C6 witness. -/
def crefA : city_reference := ⟨⟨4, 4, 0⟩, 2⟩

theorem mem_intRange {a lo hi : Int} : a ∈ intRange lo hi ↔ lo ≤ a ∧ a ≤ hi := by
  unfold intRange
  simp only [List.mem_map, List.mem_range]
  constructor
  · rintro ⟨i, hi1, rfl⟩
    omega
  · rintro ⟨h1, h2⟩
    exact ⟨(a - lo).toNat, by omega, by omega⟩

theorem random_entry_mem {α : Type} (r : Nat) (l : List α) (fallback : α)
    (h : l ≠ []) : random_entry r l fallback ∈ l := by
  unfold random_entry
  rw [if_neg (by simpa using h)]
  have hlen : r % l.length < l.length := Nat.mod_lt _ (by
    cases l with
    | nil => exact absurd rfl h
    | cons a t => simp)
  rw [List.getD_eq_getElem _ _ hlen]
  exact List.getElem_mem _

theorem random_entry_nil {α : Type} (r : Nat) (fallback : α) :
    random_entry r ([] : List α) fallback = fallback := rfl

/-- `mission_target_params` (mission_start.cpp lines 120-133).  The
`mission_pointer` field is dropped: the mission object is represented by
the `set_target` events instead.  Field defaults mirror the C++ member
initializers. -/
theorem findSome_eq_none {α β : Type} {f : α → Option β} {l : List α}
    (h : ∀ a ∈ l, f a = none) : l.findSome? f = none := by
  induction l with
  | nil => rfl
  | cons x xs ih =>
    rw [List.findSome?_cons]
    rw [h x (List.mem_cons_self x xs)]
    exact ih (fun a ha => h a (List.mem_cons_of_mem x ha))

theorem exists_of_findSome {α β : Type} {f : α → Option β} {l : List α} {b : β}
    (h : l.findSome? f = some b) : ∃ a ∈ l, f a = some b := by
  induction l with
  | nil => simp [List.findSome?] at h
  | cons x xs ih =>
    rw [List.findSome?_cons] at h
    cases hx : f x with
    | some c =>
      rw [hx] at h
      exact ⟨x, List.mem_cons_self x xs, hx.trans h⟩
    | none =>
      rw [hx] at h
      obtain ⟨a, ha, hfa⟩ := ih h
      exact ⟨a, List.mem_cons_of_mem x ha, hfa⟩

/-- Every event emitted by the search-and-create phase of
`assign_mission_target` is an overmap write (`place_special` call or
terrain assignment): in particular it never reveals, never touches the
mission target, and never emits a debug message. -/
theorem mission_target_search_events (env : Env) (params : mission_target_params) :
    ∀ e ∈ (mission_target_search env params).2,
      (∃ s o rg, e = Event.om_place_special s o rg) ∨
      ∃ q t, e = Event.om_set_ter q t := by
  intro e he
  rcases hs : params.overmap_special with _ | special <;>
    rcases hr : params.replaceable_overmap_terrain_subtype with _ | repl <;>
    simp only [mission_target_search, hs, hr] at he <;>
    repeat' split at he
  all_goals simp at he
  all_goals first
    | exact Or.inl ⟨_, _, _, he⟩
    | exact Or.inr ⟨_, _, he⟩

/-- When `must_see` is set the creation step of `assign_mission_target` is
unreachable, so the search phase emits no events at all. -/
theorem mission_target_search_must_see (env : Env) (params : mission_target_params)
    (h : params.must_see = true) : (mission_target_search env params).2 = [] := by
  simp [mission_target_search, h]

/-- C1: whenever the search (or permitted creation) phase of
`assign_mission_target` yields a valid overmap position, the function
returns exactly that position, sets the mission target to exactly that
position (and to nothing else), and reveals around it exactly when
`params.reveal_radius` is set. -/
theorem assign_mission_target_valid_spec (env : Env) (params : mission_target_params)
    (h : (mission_target_search env params).1 ≠ invalid_tripoint) :
    (assign_mission_target env params).1 = some (mission_target_search env params).1
    ∧ Event.set_target (mission_target_search env params).1 ∈
        (assign_mission_target env params).2
    ∧ (∀ q, Event.set_target q ∈ (assign_mission_target env params).2 →
        q = (mission_target_search env params).1)
    ∧ (∀ r, params.reveal_radius = some r →
        Event.reveal (mission_target_search env params).1 r ∈
          (assign_mission_target env params).2)
    ∧ (params.reveal_radius = none →
        ∀ q r, Event.reveal q r ∉ (assign_mission_target env params).2) := by
  have hse := mission_target_search_events env params
  simp only [assign_mission_target]
  rw [if_neg h]
  rcases hrr : params.reveal_radius with _ | r
  · refine ⟨rfl, by simp, ?_, ?_, ?_⟩
    · intro q hq
      simp only [List.append_nil, List.mem_append, List.mem_singleton] at hq
      rcases hq with hq | hq
      · rcases hse _ hq with ⟨s, o, rg, hE⟩ | ⟨qq, t, hE⟩ <;> simp at hE
      · simpa using hq
    · intro r hr
      simp [hrr] at hr
    · intro _ q r hq
      simp only [List.append_nil, List.mem_append, List.mem_singleton] at hq
      rcases hq with hq | hq
      · rcases hse _ hq with ⟨s, o, rg, hE⟩ | ⟨qq, t, hE⟩ <;> simp at hE
      · simp at hq
  · refine ⟨rfl, by simp, ?_, ?_, ?_⟩
    · intro q hq
      simp only [List.mem_append, List.mem_singleton] at hq
      rcases hq with (hq | hq) | hq
      · rcases hse _ hq with ⟨s, o, rg, hE⟩ | ⟨qq, t, hE⟩ <;> simp at hE
      · simp at hq
      · simpa using hq
    · intro r2 hr2
      cases hr2
      simp
    · intro hnone
      cases hnone

/-- C1 witness: a concrete environment in which the first search succeeds. -/
theorem assign_mission_target_valid_witness :
    (mission_target_search envA paramsA).1 ≠ invalid_tripoint ∧
    (assign_mission_target envA paramsA).1 = some (mission_target_search envA paramsA).1 := by
  have h : (mission_target_search envA paramsA).1 ≠ invalid_tripoint := by decide
  exact ⟨h, (assign_mission_target_valid_spec envA paramsA h).1⟩

/-- C2: when `assign_mission_target` ends with an invalid position (the
terrain was neither found nor creatable), it returns `none` after emitting
a debug message as the final event, performs no `set_target`, and performs
no reveal. -/
theorem assign_mission_target_invalid_spec (env : Env) (params : mission_target_params)
    (h : (mission_target_search env params).1 = invalid_tripoint) :
    (assign_mission_target env params).1 = none
    ∧ (assign_mission_target env params).2 =
        (mission_target_search env params).2 ++ [Event.debug]
    ∧ (∀ q, Event.set_target q ∉ (assign_mission_target env params).2)
    ∧ (∀ q r, Event.reveal q r ∉ (assign_mission_target env params).2) := by
  have hse := mission_target_search_events env params
  simp only [assign_mission_target]
  rw [if_pos h]
  refine ⟨rfl, rfl, ?_, ?_⟩
  · intro q hq
    simp only [List.mem_append, List.mem_singleton] at hq
    rcases hq with hq | hq
    · rcases hse _ hq with ⟨s, o, rg, hE⟩ | ⟨qq, t, hE⟩ <;> simp at hE
    · simp at hq
  · intro q r hq
    simp only [List.mem_append, List.mem_singleton] at hq
    rcases hq with hq | hq
    · rcases hse _ hq with ⟨s, o, rg, hE⟩ | ⟨qq, t, hE⟩ <;> simp at hE
    · simp at hq


/-- C2 witness: a concrete environment in which every search fails. -/
theorem assign_mission_target_invalid_witness :
    (mission_target_search envB paramsB).1 = invalid_tripoint ∧
    (assign_mission_target envB paramsB).1 = none := by
  have h : (mission_target_search envB paramsB).1 = invalid_tripoint := by decide
  exact ⟨h, (assign_mission_target_invalid_spec envB paramsB h).1⟩

/-- C9: with `must_see` set, `assign_mission_target` never mutates the
overmap: no `place_special` call and no overmap terrain assignment can
appear among its events, whether or not a target was found. -/
theorem assign_mission_target_must_see_frame (env : Env) (params : mission_target_params)
    (h : params.must_see = true) :
    (∀ s o rg, Event.om_place_special s o rg ∉ (assign_mission_target env params).2)
    ∧ (∀ q t, Event.om_set_ter q t ∉ (assign_mission_target env params).2) := by
  have h2 := mission_target_search_must_see env params h
  rcases hrr : params.reveal_radius with _ | r <;>
    simp only [assign_mission_target, h2, hrr] <;>
    constructor <;>
    (intro a b
     first
      | (intro c hmem
         split at hmem <;> simp at hmem)
      | (intro hmem
         split at hmem <;> simp at hmem))

/-- C9 witness: concrete `must_see` parameters. -/
theorem assign_mission_target_must_see_witness :
    paramsM.must_see = true ∧
    (∀ s o rg, Event.om_place_special s o rg ∉ (assign_mission_target envB paramsM).2) :=
  ⟨rfl, (assign_mission_target_must_see_frame envB paramsM rfl).1⟩

/-- C10: `mission_util::set_assign_om_target` clamps `reveal_radius` and
`search_range` below at 1, defaults `search_range` to `OMAPX` when absent,
and sets no reveal radius when `reveal_radius` is absent. -/
theorem set_assign_om_target_spec (jo : MissionTargetJson) (terr : String)
    (h : jo.om_terrain = some terr) :
    ∃ p z, set_assign_om_target jo = Except.ok (p, z)
    ∧ (∀ r, jo.reveal_radius = some r → r < 1 → p.reveal_radius = some 1)
    ∧ (∀ r, jo.reveal_radius = some r → 1 ≤ r → p.reveal_radius = some r)
    ∧ (jo.reveal_radius = none → p.reveal_radius = none)
    ∧ (∀ s, jo.search_range = some s → s < 1 → p.search_range = 1)
    ∧ (∀ s, jo.search_range = some s → 1 ≤ s → p.search_range = s)
    ∧ (jo.search_range = none → p.search_range = OMAPX) := by
  refine ⟨{ overmap_terrain_subtype := terr,
            replaceable_overmap_terrain_subtype := jo.om_terrain_replace,
            overmap_special := jo.om_special,
            reveal_radius := jo.reveal_radius.map (fun r => max 1 r),
            must_see := jo.must_see.getD false,
            random := jo.random.getD false,
            search_range := (jo.search_range.map (fun s => max 1 s)).getD OMAPX },
          jo.z, ?_, ?_, ?_, ?_, ?_, ?_, ?_⟩
  · simp [set_assign_om_target, h]
  · intro r hr hlt
    simp [hr]
    omega
  · intro r hr hge
    simp [hr]
    omega
  · intro hr
    simp [hr]
  · intro s hs hlt
    simp [hs]
    omega
  · intro s hs hge
    simp [hs]
    omega
  · intro hs
    simp [hs]

/-- C10 witness: a concrete JSON object with a sub-1 reveal radius and no
search range. -/
theorem set_assign_om_target_witness :
    joA.om_terrain = some "bank" ∧
    (∃ p z, set_assign_om_target joA = Except.ok (p, z)
      ∧ (∀ r, joA.reveal_radius = some r → r < 1 → p.reveal_radius = some 1)
      ∧ (∀ r, joA.reveal_radius = some r → 1 ≤ r → p.reveal_radius = some r)
      ∧ (joA.reveal_radius = none → p.reveal_radius = none)
      ∧ (∀ s, joA.search_range = some s → s < 1 → p.search_range = 1)
      ∧ (∀ s, joA.search_range = some s → 1 ≤ s → p.search_range = s)
      ∧ (joA.search_range = none → p.search_range = OMAPX)) :=
  ⟨rfl, set_assign_om_target_spec joA "bank" rfl⟩


/-- C7: when `overmap_buffer.closest_city` finds no city near the player's
submap location, `random_house_in_closest_city` emits a debug message and
returns the player's global overmap-terrain location. -/
theorem random_house_in_closest_city_no_city (env : Env) (r : Nat)
    (h : env.closest_city env.player_sm = none) :
    random_house_in_closest_city env r = (env.player_omt, [Event.debug]) := by
  simp [random_house_in_closest_city, h]

/-- C7 witness: `envA` has no city anywhere. -/
theorem random_house_in_closest_city_no_city_witness :
    envA.closest_city envA.player_sm = none ∧
    random_house_in_closest_city envA 0 = (envA.player_omt, [Event.debug]) :=
  ⟨rfl, random_house_in_closest_city_no_city envA 0 rfl⟩

/-- C8: `target_closest_lab_entrance` returns whichever of the surface
`lab_stairs` match (searched at z = 0) and the `hidden_lab_stairs` match
(searched at z = -1, then with z forced to 0) has the smaller square
distance to the origin, preferring the surface match on ties; it always
sets that point as the mission target (even when invalid), and reveals
around it exactly when the point is valid and the reveal radius is
non-negative. -/
theorem target_closest_lab_entrance_spec (env : Env) (origin : tripoint)
    (reveal_rad : Int) :
    (target_closest_lab_entrance env origin reveal_rad).1 =
      (if square_dist (env.find_closest ⟨origin.x, origin.y, 0⟩ "lab_stairs" 0
            false true false none).x
          (env.find_closest ⟨origin.x, origin.y, 0⟩ "lab_stairs" 0 false true false none).y
          origin.x origin.y ≤
        square_dist (env.find_closest ⟨origin.x, origin.y, -1⟩ "hidden_lab_stairs" 0
            false true false none).x
          (env.find_closest ⟨origin.x, origin.y, -1⟩ "hidden_lab_stairs" 0
            false true false none).y
          origin.x origin.y then
        env.find_closest ⟨origin.x, origin.y, 0⟩ "lab_stairs" 0 false true false none
      else
        ⟨(env.find_closest ⟨origin.x, origin.y, -1⟩ "hidden_lab_stairs" 0
            false true false none).x,
         (env.find_closest ⟨origin.x, origin.y, -1⟩ "hidden_lab_stairs" 0
            false true false none).y, 0⟩)
    ∧ Event.set_target (target_closest_lab_entrance env origin reveal_rad).1 ∈
        (target_closest_lab_entrance env origin reveal_rad).2
    ∧ (Event.reveal (target_closest_lab_entrance env origin reveal_rad).1 reveal_rad ∈
          (target_closest_lab_entrance env origin reveal_rad).2 ↔
        ((target_closest_lab_entrance env origin reveal_rad).1 ≠ invalid_tripoint ∧
          0 ≤ reveal_rad)) := by
  simp only [target_closest_lab_entrance]
  refine ⟨by simp, by simp, ?_⟩
  by_cases hc : (if square_dist (env.find_closest ⟨origin.x, origin.y, 0⟩ "lab_stairs" 0
        false true false none).x
      (env.find_closest ⟨origin.x, origin.y, 0⟩ "lab_stairs" 0 false true false none).y
      origin.x origin.y ≤
    square_dist (env.find_closest ⟨origin.x, origin.y, -1⟩ "hidden_lab_stairs" 0
        false true false none).x
      (env.find_closest ⟨origin.x, origin.y, -1⟩ "hidden_lab_stairs" 0
        false true false none).y
      origin.x origin.y then
    env.find_closest ⟨origin.x, origin.y, 0⟩ "lab_stairs" 0 false true false none
  else
    (⟨(env.find_closest ⟨origin.x, origin.y, -1⟩ "hidden_lab_stairs" 0
        false true false none).x,
      (env.find_closest ⟨origin.x, origin.y, -1⟩ "hidden_lab_stairs" 0
        false true false none).y, 0⟩ : tripoint)) ≠ invalid_tripoint ∧ 0 ≤ reveal_rad
  · rw [if_pos hc]
    simp [hc]
  · rw [if_neg hc]
    simp [hc]

/-- C6: `random_house_in_city` always returns a point whose z is the
city's submap z-level and whose x and y lie in the square of half-width
`city_size` centred on the city-center overmap-terrain coordinate; when no
house tile exists in that square the city center itself is returned. -/
theorem random_house_in_city_spec (env : Env) (r : Nat) (cref : city_reference)
    (hs : 0 ≤ cref.city_size) :
    (random_house_in_city env r cref).z = cref.abs_sm_pos.z
    ∧ (sm_to_omt_copy cref.abs_sm_pos).x - cref.city_size ≤
        (random_house_in_city env r cref).x
    ∧ (random_house_in_city env r cref).x ≤
        (sm_to_omt_copy cref.abs_sm_pos).x + cref.city_size
    ∧ (sm_to_omt_copy cref.abs_sm_pos).y - cref.city_size ≤
        (random_house_in_city env r cref).y
    ∧ (random_house_in_city env r cref).y ≤
        (sm_to_omt_copy cref.abs_sm_pos).y + cref.city_size
    ∧ ((∀ x y, (sm_to_omt_copy cref.abs_sm_pos).x - cref.city_size ≤ x →
          x ≤ (sm_to_omt_copy cref.abs_sm_pos).x + cref.city_size →
          (sm_to_omt_copy cref.abs_sm_pos).y - cref.city_size ≤ y →
          y ≤ (sm_to_omt_copy cref.abs_sm_pos).y + cref.city_size →
          env.check_ot_type "house" x y cref.abs_sm_pos.z = false) →
        random_house_in_city env r cref = sm_to_omt_copy cref.abs_sm_pos) := by
  set C := sm_to_omt_copy cref.abs_sm_pos with hC
  set V := (intRange (C.x - cref.city_size) (C.x + cref.city_size)).flatMap
    (fun x => (intRange (C.y - cref.city_size) (C.y + cref.city_size)).filterMap
      (fun y => if env.check_ot_type "house" x y cref.abs_sm_pos.z then
          some (tripoint.mk x y cref.abs_sm_pos.z)
        else none)) with hV
  have hrh : random_house_in_city env r cref = random_entry r V C := rfl
  have hmemV : ∀ p ∈ V, C.x - cref.city_size ≤ p.x ∧ p.x ≤ C.x + cref.city_size ∧
      C.y - cref.city_size ≤ p.y ∧ p.y ≤ C.y + cref.city_size ∧
      p.z = cref.abs_sm_pos.z ∧
      env.check_ot_type "house" p.x p.y cref.abs_sm_pos.z = true := by
    intro p hp
    rw [hV] at hp
    simp only [List.mem_flatMap, List.mem_filterMap] at hp
    obtain ⟨x, hx, y, hy, hpy⟩ := hp
    rw [mem_intRange] at hx
    rw [mem_intRange] at hy
    split at hpy
    · rename_i hcheck
      cases hpy
      exact ⟨hx.1, hx.2, hy.1, hy.2, rfl, hcheck⟩
    · cases hpy
  have hCz : C.z = cref.abs_sm_pos.z := rfl
  by_cases hVnil : V = []
  · rw [hrh, hVnil, random_entry_nil]
    exact ⟨hCz, by omega, by omega, by omega, by omega, fun _ => rfl⟩
  · have hmem : random_house_in_city env r cref ∈ V := by
      rw [hrh]
      exact random_entry_mem r V C hVnil
    obtain ⟨h1, h2, h3, h4, h5, h6⟩ := hmemV _ hmem
    refine ⟨h5, h1, h2, h3, h4, ?_⟩
    intro H
    exfalso
    have hfalse := H _ _ h1 h2 h3 h4
    rw [h6] at hfalse
    exact Bool.noConfusion hfalse

/-- C6 witness: a city of size 2 around submap (4, 4) with a single house
tile at (1, 1). -/
theorem random_house_in_city_witness :
    0 ≤ crefA.city_size ∧ (random_house_in_city envC 0 crefA).z = crefA.abs_sm_pos.z := by
  have h := random_house_in_city_spec envC 0 crefA (by decide)
  exact ⟨by decide, h.1⟩

/-- Helper for C5: every event of the horde-spawning block is a map-chunk
tile operation. -/
theorem kill_horde_master_spawns_tile_ops (rngs : Nat → Nat) (site : tripoint) :
    ∀ e ∈ kill_horde_master_spawns rngs site, e.is_tile_op = true := by
  have hall : (kill_horde_master_spawns rngs site).all Event.is_tile_op = true := rfl
  intro e he
  exact List.all_eq_true.mp hall e he

/-- C3: when the mission's `npc_id` does not resolve to an NPC, each of the
eight NPC-dependent mission-start routines emits only a debug message:
no mission-object write, no overmap write, and no map-chunk write occurs.
(`place_dog` chooses the house before the NPC check and so may add a
second debug message from the failed city lookup, but still mutates
nothing.) -/
theorem npc_missing_frame (env : Env) (miss : Mission) (rngs : Nat → Nat)
    (r rh rs : Nat) (h : env.find_npc miss.npc_id = none) :
    mission_start.join env miss = [Event.debug]
    ∧ mission_start.infect_npc env miss = [Event.debug]
    ∧ mission_start.need_drugs_npc env miss = [Event.debug]
    ∧ (∀ e ∈ mission_start.place_dog env r miss, e = Event.debug)
    ∧ Event.debug ∈ mission_start.place_dog env r miss
    ∧ mission_start.kill_horde_master env rngs miss = [Event.debug]
    ∧ mission_start.place_deposit_box env rngs rs miss = [Event.debug]
    ∧ mission_start.recruit_tracker env miss = [Event.debug]
    ∧ mission_start.place_npc_software env rngs rh rs miss = [Event.debug] := by
  refine ⟨by simp [mission_start.join, h], by simp [mission_start.infect_npc, h],
    by simp [mission_start.need_drugs_npc, h], ?_, ?_,
    by simp [mission_start.kill_horde_master, h],
    by simp [mission_start.place_deposit_box, h],
    by simp [mission_start.recruit_tracker, h],
    by simp [mission_start.place_npc_software, h]⟩
  · intro e he
    rcases hcc : env.closest_city env.player_sm with _ | cref <;>
      simp [mission_start.place_dog, h, random_house_in_closest_city, hcc] at he <;>
      exact he
  · rcases hcc : env.closest_city env.player_sm with _ | cref <;>
      simp [mission_start.place_dog, h, random_house_in_closest_city, hcc]

/-- C3 witness: `envB` has no NPC with id 7. -/
theorem npc_missing_frame_witness :
    envB.find_npc missA.npc_id = none ∧
    mission_start.join envB missA = [Event.debug] :=
  ⟨rfl, (npc_missing_frame envB missA rngs0 0 0 0 rfl).1⟩

/-- C5: `mission_start::kill_horde_master` (with a resolvable NPC) selects
the haunt site by querying `find_closest` for "office_tower_1", then
"hotel_tower_1_8", then "school_5", then "forest_thick", keeping the first
valid result; it then sets that site as the mission target and reveals
radius 6 around it before any of the horde-spawning map operations. -/
theorem kill_horde_master_spec (env : Env) (rngs : Nat → Nat) (miss : Mission)
    (p : Npc) (h : env.find_npc miss.npc_id = some p) :
    ∃ s1 s2 s3 site,
      s1 = env.find_closest p.omt_location "office_tower_1" 0 false false false none ∧
      s2 = (if s1 = invalid_tripoint then
        env.find_closest p.omt_location "hotel_tower_1_8" 0 false false false none
        else s1) ∧
      s3 = (if s2 = invalid_tripoint then
        env.find_closest p.omt_location "school_5" 0 false false false none
        else s2) ∧
      site = (if s3 = invalid_tripoint then
        env.find_closest p.omt_location "forest_thick" 0 false false false none
        else s3) ∧
      mission_start.kill_horde_master env rngs miss =
        Event.npc_set_attitude "NPCATT_FOLLOW" :: Event.set_target site ::
        Event.reveal site 6 :: kill_horde_master_spawns rngs site ∧
      (∀ e ∈ kill_horde_master_spawns rngs site, e.is_tile_op = true) := by
  refine ⟨_, _, _, _, rfl, rfl, rfl, rfl, ?_, ?_⟩
  · simp [mission_start.kill_horde_master, h]
  · exact kill_horde_master_spawns_tile_ops rngs _

/-- C5 witness: a concrete environment where the first search succeeds. -/
theorem kill_horde_master_witness :
    envA.find_npc missA.npc_id = some npcA ∧
    ∃ s1 s2 s3 site,
      s1 = envA.find_closest npcA.omt_location "office_tower_1" 0 false false false none ∧
      s2 = (if s1 = invalid_tripoint then
        envA.find_closest npcA.omt_location "hotel_tower_1_8" 0 false false false none
        else s1) ∧
      s3 = (if s2 = invalid_tripoint then
        envA.find_closest npcA.omt_location "school_5" 0 false false false none
        else s2) ∧
      site = (if s3 = invalid_tripoint then
        envA.find_closest npcA.omt_location "forest_thick" 0 false false false none
        else s3) ∧
      mission_start.kill_horde_master envA rngs0 missA =
        Event.npc_set_attitude "NPCATT_FOLLOW" :: Event.set_target site ::
        Event.reveal site 6 :: kill_horde_master_spawns rngs0 site ∧
      (∀ e ∈ kill_horde_master_spawns rngs0 site, e.is_tile_op = true) :=
  ⟨rfl, kill_horde_master_spec envA rngs0 missA npcA rfl⟩

/-- Helper for C4: every scanned pair has radius at most 20 and |dist| at
most the radius. -/
theorem find_safety_pairs_bounds :
    ∀ rd ∈ find_safety_pairs, rd.1 ≤ 20 ∧ rd.2.natAbs ≤ rd.1 := by
  intro rd hrd
  simp only [find_safety_pairs, List.mem_flatMap, List.mem_map, List.mem_range] at hrd
  obtain ⟨radius, hlt, d, hd, rfl⟩ := hrd
  refine ⟨by omega, ?_⟩
  simp only
  omega

/-- Helper for C4: every checked direction tile stays on the player's
z-level within Chebyshev distance 20, given the ring bounds. -/
theorem find_safety_dir_bounds (place : tripoint) (radius dist : Int) (d : Nat)
    (h1 : 0 ≤ radius) (h2 : radius ≤ 20) (h3 : dist.natAbs ≤ radius.natAbs) :
    (find_safety_dir place radius dist d).z = place.z ∧
    ((find_safety_dir place radius dist d).x - place.x).natAbs ≤ 20 ∧
    ((find_safety_dir place radius dist d).y - place.y).natAbs ≤ 20 := by
  rcases d with _ | _ | _ | n
  · exact ⟨rfl, by dsimp only [find_safety_dir]; omega,
      by dsimp only [find_safety_dir]; omega⟩
  · exact ⟨rfl, by dsimp only [find_safety_dir]; omega,
      by dsimp only [find_safety_dir]; omega⟩
  · exact ⟨rfl, by dsimp only [find_safety_dir]; omega,
      by dsimp only [find_safety_dir]; omega⟩
  · refine ⟨rfl, ?_, ?_⟩
    · show ((place.x + radius) - place.x).natAbs ≤ 20
      omega
    · show ((place.y + dist) - place.y).natAbs ≤ 20
      omega

/-- Helper for C4: a successful inner direction scan returns a checked
tile that the overmap reports safe. -/
theorem find_safety_try_some {env : Env} {place : tripoint} {radius dist : Int}
    {offset : Nat} {c : tripoint}
    (h : find_safety_try env place radius dist offset = some c) :
    (∃ d, c = find_safety_dir place radius dist d) ∧ env.is_safe c = true := by
  obtain ⟨i, hi, hfi⟩ := exists_of_findSome h
  dsimp only at hfi
  split at hfi
  · rename_i hsafe
    cases hfi
    exact ⟨⟨(offset + i) % 4, rfl⟩, hsafe⟩
  · cases hfi

/-- C4: `mission_start::find_safety` always sets the mission target to a
tile on the player's z-level within Chebyshev distance 20 of the player's
global overmap-terrain location, and when no tile in that ball is safe the
target is one of the four corners at offset (±20, ±20). -/
theorem find_safety_spec (env : Env) (offs : Nat → Int → Nat) (rfb : Nat) :
    (find_safety env offs rfb).2 = [Event.set_target (find_safety env offs rfb).1]
    ∧ (find_safety env offs rfb).1.z = env.player_omt.z
    ∧ ((find_safety env offs rfb).1.x - env.player_omt.x).natAbs ≤ 20
    ∧ ((find_safety env offs rfb).1.y - env.player_omt.y).natAbs ≤ 20
    ∧ ((∀ p : tripoint, p.z = env.player_omt.z →
          (p.x - env.player_omt.x).natAbs ≤ 20 →
          (p.y - env.player_omt.y).natAbs ≤ 20 → env.is_safe p = false) →
        ((find_safety env offs rfb).1 =
            ⟨env.player_omt.x - 20, env.player_omt.y - 20, env.player_omt.z⟩
        ∨ (find_safety env offs rfb).1 =
            ⟨env.player_omt.x - 20, env.player_omt.y + 20, env.player_omt.z⟩
        ∨ (find_safety env offs rfb).1 =
            ⟨env.player_omt.x + 20, env.player_omt.y - 20, env.player_omt.z⟩
        ∨ (find_safety env offs rfb).1 =
            ⟨env.player_omt.x + 20, env.player_omt.y + 20, env.player_omt.z⟩)) := by
  simp only [find_safety]
  rcases hscan : find_safety_scan env offs env.player_omt with _ | c
  · -- no safe tile was found by the ring scan: the target is a corner
    have h4 : rfb % 4 = 0 ∨ rfb % 4 = 1 ∨ rfb % 4 = 2 ∨ rfb % 4 = 3 := by omega
    rcases h4 with hm | hm | hm | hm <;> rw [hm]
    · exact ⟨by dsimp only, by dsimp only, by dsimp only; omega, by dsimp only; omega,
        fun _ => Or.inl rfl⟩
    · exact ⟨by dsimp only, by dsimp only, by dsimp only; omega, by dsimp only; omega,
        fun _ => Or.inr (Or.inl rfl)⟩
    · exact ⟨by dsimp only, by dsimp only, by dsimp only; omega, by dsimp only; omega,
        fun _ => Or.inr (Or.inr (Or.inl rfl))⟩
    · exact ⟨by dsimp only, by dsimp only, by dsimp only; omega, by dsimp only; omega,
        fun _ => Or.inr (Or.inr (Or.inr rfl))⟩
  · -- the scan found a safe checked tile
    obtain ⟨rd, hrd, htry⟩ :=
      exists_of_findSome (by simpa only [find_safety_scan] using hscan)
    obtain ⟨hr20, hdist⟩ := find_safety_pairs_bounds rd hrd
    obtain ⟨⟨d, rfl⟩, hsafe⟩ := find_safety_try_some htry
    obtain ⟨hz, hx, hy⟩ := find_safety_dir_bounds env.player_omt (rd.1 : Int) rd.2 d
      (by omega) (by omega) (by simpa using hdist)
    refine ⟨by dsimp only, hz, hx, hy, ?_⟩
    intro H
    exfalso
    have hfalse := H _ hz hx hy
    rw [hsafe] at hfalse
    exact Bool.noConfusion hfalse

/-- C4 witness: in `envA` no tile is safe, so the target is a corner. -/
theorem find_safety_witness :
    (∀ p : tripoint, p.z = envA.player_omt.z → (p.x - envA.player_omt.x).natAbs ≤ 20 →
      (p.y - envA.player_omt.y).natAbs ≤ 20 → envA.is_safe p = false) ∧
    ((find_safety envA offs0 0).1 =
        ⟨envA.player_omt.x - 20, envA.player_omt.y - 20, envA.player_omt.z⟩
    ∨ (find_safety envA offs0 0).1 =
        ⟨envA.player_omt.x - 20, envA.player_omt.y + 20, envA.player_omt.z⟩
    ∨ (find_safety envA offs0 0).1 =
        ⟨envA.player_omt.x + 20, envA.player_omt.y - 20, envA.player_omt.z⟩
    ∨ (find_safety envA offs0 0).1 =
        ⟨envA.player_omt.x + 20, envA.player_omt.y + 20, envA.player_omt.z⟩) := by
  have H : ∀ p : tripoint, p.z = envA.player_omt.z →
      (p.x - envA.player_omt.x).natAbs ≤ 20 →
      (p.y - envA.player_omt.y).natAbs ≤ 20 → envA.is_safe p = false :=
    fun _ _ _ _ => rfl
  exact ⟨H, (find_safety_spec envA offs0 0).2.2.2.2 H⟩
